import Mathlib

/-!
Shallow embedding of `mqtt_client.py` (PyAirseekers): the MQTT client that
bridges paho-mqtt's callback-driven transport into awaitable operations.
State mutation is modelled by explicit state passing; the transport and the
event loop are modelled by behaviour oracles (which acks arrive within each
bounded wait); `asyncio.Event` objects are modelled by presence in the
corresponding dict together with a Bool "set" flag; the temp-directory
credential files are modelled by a small filesystem of numbered directories.
-/

/-! ### Association-list helpers (model of Python dict operations) -/

def lookupA {α β : Type} [DecidableEq α] : List (α × β) → α → Option β
  | [], _ => none
  | (k, v) :: rest, key => if key = k then some v else lookupA rest key

def eraseA {α β : Type} [DecidableEq α] (l : List (α × β)) (key : α) :
    List (α × β) :=
  l.filter (fun p => !(decide (p.1 = key)))

def setA {α β : Type} [DecidableEq α] (l : List (α × β)) (key : α) (v : β) :
    List (α × β) :=
  (key, v) :: eraseA l key

/-! ### JSON values, parser and printer (model of Python json.loads / json.dumps,
restricted to integer numerals and basic string escapes) -/

inductive Json where
  | null
  | bool (b : Bool)
  | num (n : Int)
  | str (s : String)
  | arr (elems : List Json)
  | obj (members : List (String × Json))
deriving Repr

def lbrace : Char := Char.ofNat 123

def rbrace : Char := Char.ofNat 125

def isWsChar (c : Char) : Bool :=
  c = ' ' || c = '\t' || c = '\n' || c = '\r'

def skipWs : List Char → List Char
  | [] => []
  | c :: cs => if isWsChar c then skipWs cs else c :: cs

def decodeEscape (e : Char) : Option Char :=
  if e = '"' then some '"'
  else if e = '\\' then some '\\'
  else if e = '/' then some '/'
  else if e = 'n' then some '\n'
  else if e = 't' then some '\t'
  else if e = 'r' then some '\r'
  else none

/-- Parses the body of a JSON string literal after the opening quote; returns
the content characters and the remaining input after the closing quote. -/
def parseStringChars : List Char → Option (List Char × List Char)
  | [] => none
  | c :: cs =>
    if c = '"' then some ([], cs)
    else if c = '\\' then
      match cs with
      | [] => none
      | e :: cs2 =>
        match decodeEscape e with
        | some d =>
          match parseStringChars cs2 with
          | some (out, rest) => some (d :: out, rest)
          | none => none
        | none => none
    else
      match parseStringChars cs with
      | some (out, rest) => some (c :: out, rest)
      | none => none

def takeDigits : List Char → (List Char × List Char)
  | [] => ([], [])
  | c :: cs =>
    if c.isDigit then
      let (ds, rest) := takeDigits cs
      (c :: ds, rest)
    else ([], c :: cs)

def digitsToNat (l : List Char) : Nat :=
  l.foldl (fun acc c => acc * 10 + (c.toNat - 48)) 0

def startsWithChars : List Char → List Char → Option (List Char)
  | [], rest => some rest
  | _ :: _, [] => none
  | p :: ps, c :: cs => if c = p then startsWithChars ps cs else none

mutual

def parseValue : Nat → List Char → Option (Json × List Char)
  | 0, _ => none
  | Nat.succ fuel, input =>
    match skipWs input with
    | [] => none
    | c :: cs =>
      if c = '"' then
        match parseStringChars cs with
        | some (out, rest) => some (.str (String.mk out), rest)
        | none => none
      else if c = lbrace then
        match skipWs cs with
        | [] => none
        | c2 :: cs2 =>
          if c2 = rbrace then some (.obj [], cs2)
          else
            match parseMembers fuel (c2 :: cs2) with
            | some (ms, rest) => some (.obj ms, rest)
            | none => none
      else if c = '[' then
        match skipWs cs with
        | [] => none
        | c2 :: cs2 =>
          if c2 = ']' then some (.arr [], cs2)
          else
            match parseItems fuel (c2 :: cs2) with
            | some (vs, rest) => some (.arr vs, rest)
            | none => none
      else if c = '-' then
        match takeDigits cs with
        | ([], _) => none
        | (ds, rest) => some (.num (-(Int.ofNat (digitsToNat ds))), rest)
      else if c.isDigit then
        let (ds, rest) := takeDigits (c :: cs)
        some (.num (Int.ofNat (digitsToNat ds)), rest)
      else
        match startsWithChars ['t', 'r', 'u', 'e'] (c :: cs) with
        | some rest => some (.bool true, rest)
        | none =>
          match startsWithChars ['f', 'a', 'l', 's', 'e'] (c :: cs) with
          | some rest => some (.bool false, rest)
          | none =>
            match startsWithChars ['n', 'u', 'l', 'l'] (c :: cs) with
            | some rest => some (.null, rest)
            | none => none

def parseMembers : Nat → List Char → Option (List (String × Json) × List Char)
  | 0, _ => none
  | Nat.succ fuel, input =>
    match skipWs input with
    | '"' :: cs =>
      match parseStringChars cs with
      | some (key, rest) =>
        match skipWs rest with
        | ':' :: rest2 =>
          match parseValue fuel rest2 with
          | some (v, rest3) =>
            match skipWs rest3 with
            | [] => none
            | c :: rest4 =>
              if c = ',' then
                match parseMembers fuel rest4 with
                | some (ms, rest5) => some ((String.mk key, v) :: ms, rest5)
                | none => none
              else if c = rbrace then some ([(String.mk key, v)], rest4)
              else none
          | none => none
        | _ => none
      | none => none
    | _ => none

def parseItems : Nat → List Char → Option (List Json × List Char)
  | 0, _ => none
  | Nat.succ fuel, input =>
    match parseValue fuel input with
    | some (v, rest) =>
      match skipWs rest with
      | [] => none
      | c :: rest2 =>
        if c = ',' then
          match parseItems fuel rest2 with
          | some (vs, rest3) => some (v :: vs, rest3)
          | none => none
        else if c = ']' then some ([v], rest2)
        else none
    | none => none

end

/-- Model of Python `json.loads`: parse a complete JSON document, requiring
only whitespace after the value; `none` models a raised JSONDecodeError. -/
def json_loads (s : String) : Option Json :=
  match parseValue (s.length + 1) s.data with
  | some (j, rest) => if skipWs rest = [] then some j else none
  | none => none

mutual

def json_dumps : Json → String
  | .null => "null"
  | .bool true => "true"
  | .bool false => "false"
  | .num n => toString n
  | .str s => "\"" ++ s ++ "\""
  | .arr xs => "[" ++ dumpsItems xs ++ "]"
  | .obj ms => String.singleton lbrace ++ dumpsMembers ms ++ String.singleton rbrace

def dumpsItems : List Json → String
  | [] => ""
  | [x] => json_dumps x
  | x :: xs => json_dumps x ++ ", " ++ dumpsItems xs

def dumpsMembers : List (String × Json) → String
  | [] => ""
  | [(k, v)] => "\"" ++ k ++ "\": " ++ json_dumps v
  | (k, v) :: ms => "\"" ++ k ++ "\": " ++ json_dumps v ++ ", " ++ dumpsMembers ms

end

/-! ### Filesystem model for the temp-directory credential material -/

structure FileSystem where
  nextDir : Nat
  dirs : List (Nat × List (String × String))
deriving Repr, DecidableEq

/-- Model of `tempfile.mkdtemp`: allocates a fresh directory handle. -/
def mkdtemp (fs : FileSystem) : Nat × FileSystem :=
  (fs.nextDir, ⟨fs.nextDir + 1, (fs.nextDir, []) :: fs.dirs⟩)

/-- Model of `open(path, "w"); f.write(content)` inside directory `d`. -/
def writeFile (fs : FileSystem) (d : Nat) (name content : String) : FileSystem :=
  match lookupA fs.dirs d with
  | some files => { fs with dirs := setA fs.dirs d (setA files name content) }
  | none => fs

/-- Model of `shutil.rmtree`: `none` models the raised FileNotFoundError when
the directory does not exist. -/
def rmtree (fs : FileSystem) (d : Nat) : Option FileSystem :=
  match lookupA fs.dirs d with
  | some _ => some { fs with dirs := eraseA fs.dirs d }
  | none => none

def readFile (fs : FileSystem) (d : Nat) (name : String) : Option String :=
  match lookupA fs.dirs d with
  | some files => lookupA files name
  | none => none

/-! ### Data model (models.py) -/

structure IoTCertResponse where
  ca : String
  cert_key : String
  mqtt_broker : String
  mqtt_client_id : String
  private_key : String
deriving Repr, DecidableEq

/-! ### MQTT client state (the mutable fields of `MQTTClient.__init__`);
`client` records whether `self.client` is set, events are (presence, set-flag). -/

structure MQTTState where
  is_connected : Bool
  client : Bool
  temp_dir : Option Nat
  connection_event : Bool
  disconnect_event : Bool
  subscribe_events : List (String × Bool)
  publish_events : List (Nat × Bool)
  publish_results : List (Nat × Bool)
  user_data : Option String
deriving Repr, DecidableEq

/-- Observable events: transport contacts and bounded waits (`asyncio.wait_for`
with the given timeout; the flag records whether the awaited event was set). -/
inductive Ev where
  | loopStart
  | connectReq (host : String) (port : Nat)
  | subscribeReq (topic : String)
  | publishReq (topic : String) (payload : String)
  | disconnectReq
  | loopStop
  | waited (timeout : Nat) (signaled : Bool)
deriving Repr, DecidableEq

inductive OpOutcome where
  | ok (b : Bool)
  | exn (msg : String)
deriving Repr, DecidableEq

structure OpResult where
  out : OpOutcome
  state : MQTTState
  tr : List Ev
deriving Repr, DecidableEq

structure ConnectResult where
  ret : Bool
  state : MQTTState
  fs : FileSystem
  tr : List Ev
deriving Repr, DecidableEq

structure DisconnectResult where
  state : MQTTState
  fs : FileSystem
  tr : List Ev
deriving Repr, DecidableEq

namespace MQTTClient

/-- The state built by `MQTTClient.__init__`. -/
def initState : MQTTState :=
  { is_connected := false
    client := false
    temp_dir := none
    connection_event := false
    disconnect_event := false
    subscribe_events := []
    publish_events := []
    publish_results := []
    user_data := none }

/-- `MQTTClient._on_connect` (lines 33-39): on reason code 0 set the connected
flag and the connection event; otherwise only log. -/
def on_connect (reason_code : Nat) (s : MQTTState) : MQTTState :=
  if reason_code = 0 then
    { s with is_connected := true, connection_event := true }
  else s

/-- `MQTTClient._on_disconnect` (lines 41-45). -/
def on_disconnect (s : MQTTState) : MQTTState :=
  { s with is_connected := false, connection_event := false,
           disconnect_event := true }

/-- `MQTTClient._on_subscribe` (lines 57-61): reads the topic from userdata and
signals its event when `topic and topic in self._subscribe_events` — the
Python truthiness test means an empty-string topic never signals. -/
def on_subscribe (s : MQTTState) : MQTTState :=
  match s.user_data with
  | some topic =>
    if topic ≠ "" ∧ (lookupA s.subscribe_events topic).isSome then
      { s with subscribe_events := setA s.subscribe_events topic true }
    else s
  | none => s

/-- `MQTTClient._on_publish` (lines 63-66): only acts when `mid` has a
registered event; reason code 0 is MQTT_ERR_SUCCESS. -/
def on_publish (mid : Nat) (reason_code : Nat) (s : MQTTState) : MQTTState :=
  if (lookupA s.publish_events mid).isSome then
    { s with publish_results := setA s.publish_results mid (reason_code = 0),
             publish_events := setA s.publish_events mid true }
  else s

/-- Decoded payload handed to the consumer callback. -/
inductive Decoded where
  | json (j : Json)
  | raw (s : String)
deriving Repr

/-- `MQTTClient._on_message` (lines 47-55): when a consumer callback is
registered, decode the payload as JSON with raw-text fallback and schedule
`callback(topic, payload)`; the returned pair is the scheduled invocation,
`none` means the message was dropped. -/
def on_message (has_callback : Bool) (topic : String) (payload : String) :
    Option (String × Decoded) :=
  if has_callback then
    match json_loads payload with
    | some j => some (topic, .json j)
    | none => some (topic, .raw payload)
  else none

/-- Model of Python `str.split(sep)` on the character list: splits at every
occurrence of `sep`, keeping empty pieces. -/
def splitCharsOn (sep : Char) : List Char → List (List Char)
  | [] => [[]]
  | c :: cs =>
    let rest := splitCharsOn sep cs
    if c = sep then [] :: rest
    else
      match rest with
      | r :: rs => (c :: r) :: rs
      | [] => [[c]]

/-- `broker_host, broker_port = mqtt_broker.split(":")` with `int(broker_port)`
(line 82 and line 109); `none` models the raised ValueError, from the tuple
unpacking when the split does not yield exactly two pieces, or from `int()`
when the port piece is not a digit string. -/
def parseBroker (s : String) : Option (String × Nat) :=
  match splitCharsOn ':' s.data with
  | [h, p] =>
    if p ≠ [] ∧ p.all Char.isDigit then some (String.mk h, digitsToNat p)
    else none
  | _ => none

/-- Transport behaviour oracle for one `connect()` call: whether the credential
file writes succeed, the synchronous return code of `client.connect`, and the
reason code of a connect-ack callback delivered within the 10-unit wait
(`none` = no ack arrives in time). -/
structure ConnectBehavior where
  write_ok : Bool
  init_result : Nat
  ack : Option Nat
deriving Repr, DecidableEq

/-- `MQTTClient.connect` (lines 68-119): provision credential files into a
fresh temp directory, create and configure the client, start the loop,
initiate the connection and wait up to 10 units for the connect event; every
exception is caught and converted to a `false` return. -/
def connect (cert : IoTCertResponse) (b : ConnectBehavior) (s : MQTTState)
    (fs : FileSystem) : ConnectResult :=
  let (d, fs1) := mkdtemp fs
  let s1 := { s with temp_dir := some d }
  if !b.write_ok then
    -- exception while writing the CA/cert/key files, caught at line 117
    ⟨false, s1, fs1, []⟩
  else
    let fs2 := writeFile fs1 d "ca.crt" cert.ca
    let fs3 := writeFile fs2 d "cert.pem" cert.cert_key
    let fs4 := writeFile fs3 d "private.key" cert.private_key
    match parseBroker cert.mqtt_broker with
    | none => ⟨false, s1, fs4, []⟩  -- ValueError from unpack / int, caught
    | some (host, port) =>
      let s2 := { s1 with client := true }
      let tr := [Ev.loopStart, Ev.connectReq host port]
      if b.init_result ≠ 0 then
        -- `raise Exception(...)` at line 111, caught at line 117
        ⟨false, s2, fs4, tr⟩
      else
        let s3 := match b.ack with
          | some rc => on_connect rc s2
          | none => s2
        if s3.connection_event then
          ⟨true, s3, fs4, tr ++ [Ev.waited 10 true]⟩
        else
          ⟨false, s3, fs4, tr ++ [Ev.waited 10 false]⟩

/-- Transport behaviour oracle for one `disconnect()` call: whether the
disconnect-ack callback arrives within the 5-unit wait. -/
structure DisconnectBehavior where
  ack : Bool
deriving Repr, DecidableEq

/-- `MQTTClient.disconnect` (lines 121-144): transport teardown only when
`self.client and self.is_connected`; afterwards always attempt `rmtree` of the
temp directory (its failure is caught and logged). -/
def disconnect (b : DisconnectBehavior) (s : MQTTState) (fs : FileSystem) :
    DisconnectResult :=
  let (s1, tr) :=
    if s.client && s.is_connected then
      let sa := { s with disconnect_event := false }
      let sb := if b.ack then on_disconnect sa else sa
      if sb.disconnect_event then
        ({ sb with is_connected := false },
          [Ev.disconnectReq, Ev.waited 5 true, Ev.loopStop])
      else
        ({ sb with is_connected := false },
          [Ev.disconnectReq, Ev.waited 5 false, Ev.loopStop])
    else (s, [])
  match s1.temp_dir with
  | some d =>
    match rmtree fs d with
    | some fs2 => ⟨s1, fs2, tr⟩
    | none => ⟨s1, fs, tr⟩  -- FileNotFoundError caught at line 143
  | none => ⟨s1, fs, tr⟩

/-- Transport behaviour oracle for one `subscribe()` call: the synchronous
result of `client.subscribe`, the assigned message id, and whether the
subscribe-ack callback arrives within the 5-unit wait. -/
structure SubscribeBehavior where
  sync_result : Nat
  mid : Nat
  ack : Bool
deriving Repr, DecidableEq

/-- `MQTTClient.subscribe` (lines 146-171): raises RuntimeError when not
connected; registers an event under the topic (unconditionally overwriting),
sets the userdata, issues the request, and waits up to 5 units; the
registration is deleted on every completion path. -/
def subscribe (b : SubscribeBehavior) (topic : String) (s : MQTTState) :
    OpResult :=
  if !s.is_connected || !s.client then
    ⟨.exn "MQTT client not connected", s, []⟩
  else
    let s1 := { s with subscribe_events := setA s.subscribe_events topic false }
    let s2 := { s1 with user_data := some topic }
    let tr := [Ev.subscribeReq topic]
    if b.sync_result ≠ 0 then
      ⟨.ok false,
        { s2 with subscribe_events := eraseA s2.subscribe_events topic }, tr⟩
    else
      let s3 := if b.ack then on_subscribe s2 else s2
      if lookupA s3.subscribe_events topic = some true then
        ⟨.ok true,
          { s3 with subscribe_events := eraseA s3.subscribe_events topic },
          tr ++ [Ev.waited 5 true]⟩
      else
        ⟨.ok false,
          { s3 with subscribe_events := eraseA s3.subscribe_events topic },
          tr ++ [Ev.waited 5 false]⟩

/-- `Union[str, dict]` payload of `publish`. -/
inductive PyPayload where
  | str (s : String)
  | dict (j : Json)
deriving Repr

/-- Lines 177-178: dict payloads are serialized with `json.dumps`. -/
def payloadToStr : PyPayload → String
  | .str s => s
  | .dict j => json_dumps j

/-- Transport behaviour oracle for one `publish()` call: the assigned message
id, the immediate `is_published()` indicator, and the reason code of a
publish-ack callback delivered within the 5-unit wait (`none` = no ack). -/
structure PublishBehavior where
  mid : Nat
  is_published : Bool
  ack : Option Nat
deriving Repr, DecidableEq

/-- `MQTTClient.publish` (lines 173-214): raises RuntimeError when not
connected; when the message is already flushed returns success immediately,
otherwise registers an event under the message id and waits up to 5 units,
removing the bookkeeping on every path. -/
def publish (b : PublishBehavior) (topic : String) (payload : PyPayload)
    (s : MQTTState) : OpResult :=
  if !s.is_connected || !s.client then
    ⟨.exn "MQTT client not connected", s, []⟩
  else
    let pstr := payloadToStr payload
    let tr := [Ev.publishReq topic pstr]
    if b.is_published then
      ⟨.ok true, s, tr⟩
    else
      let s1 := { s with publish_events := setA s.publish_events b.mid false }
      let s2 := match b.ack with
        | some rc => on_publish b.mid rc s1
        | none => s1
      if lookupA s2.publish_events b.mid = some true then
        let success := (lookupA s2.publish_results b.mid).getD false
        ⟨.ok success,
          { s2 with publish_events := eraseA s2.publish_events b.mid,
                    publish_results := eraseA s2.publish_results b.mid },
          tr ++ [Ev.waited 5 true]⟩
      else
        ⟨.ok false,
          { s2 with publish_events := eraseA s2.publish_events b.mid,
                    publish_results := eraseA s2.publish_results b.mid },
          tr ++ [Ev.waited 5 false]⟩

/-- `MQTTClient.is_connection_alive` (lines 216-217). -/
def is_connection_alive (s : MQTTState) : Bool :=
  s.is_connected && s.client

end MQTTClient

/-! ### Helper lemmas about the association-list operations -/

theorem lookupA_eraseA_self {α β : Type} [DecidableEq α] (l : List (α × β))
    (k : α) : lookupA (eraseA l k) k = none := by
  induction l with
  | nil => rfl
  | cons p rest ih =>
    rcases p with ⟨a, b⟩
    by_cases ha : a = k
    · simpa [eraseA, List.filter_cons, ha] using ih
    · have hk : k ≠ a := fun h => ha h.symm
      simpa [eraseA, List.filter_cons, ha, lookupA, hk] using ih

theorem lookupA_eraseA_ne {α β : Type} [DecidableEq α] (l : List (α × β))
    (k k' : α) (h : k' ≠ k) : lookupA (eraseA l k) k' = lookupA l k' := by
  induction l with
  | nil => rfl
  | cons p rest ih =>
    rcases p with ⟨a, b⟩
    by_cases ha : a = k
    · subst ha
      simpa [eraseA, List.filter_cons, lookupA, h] using ih
    · by_cases hk : k' = a
      · simp [eraseA, List.filter_cons, ha, lookupA, hk]
      · simpa [eraseA, List.filter_cons, ha, lookupA, hk] using ih

theorem lookupA_setA_self {α β : Type} [DecidableEq α] (l : List (α × β))
    (k : α) (v : β) : lookupA (setA l k v) k = some v := by
  simp [setA, lookupA]

theorem lookupA_setA_ne {α β : Type} [DecidableEq α] (l : List (α × β))
    (k k' : α) (v : β) (h : k' ≠ k) :
    lookupA (setA l k v) k' = lookupA l k' := by
  simp [setA, lookupA, h, lookupA_eraseA_ne l k k' h]

/-! ### Helper lemmas about the filesystem model -/

theorem writeFile_nextDir (fs : FileSystem) (d : Nat) (n c : String) :
    (writeFile fs d n c).nextDir = fs.nextDir := by
  unfold writeFile
  rcases lookupA fs.dirs d with _ | files <;> rfl

theorem writeFile_isSome_self (fs : FileSystem) (d : Nat) (n c : String)
    (h : (lookupA fs.dirs d).isSome = true) :
    (lookupA (writeFile fs d n c).dirs d).isSome = true := by
  rcases hl : lookupA fs.dirs d with _ | files
  · rw [hl] at h; cases h
  · simp [writeFile, hl, lookupA_setA_self]

theorem readFile_writeFile_self (fs : FileSystem) (d : Nat) (n c : String)
    (h : (lookupA fs.dirs d).isSome = true) :
    readFile (writeFile fs d n c) d n = some c := by
  rcases hl : lookupA fs.dirs d with _ | files
  · rw [hl] at h; cases h
  · simp [writeFile, readFile, hl, lookupA_setA_self]

theorem readFile_writeFile_other_name (fs : FileSystem) (d : Nat)
    (n c n' : String) (hn : n' ≠ n) :
    readFile (writeFile fs d n c) d n' = readFile fs d n' := by
  rcases hl : lookupA fs.dirs d with _ | files
  · simp [writeFile, hl]
  · simp [writeFile, readFile, hl, lookupA_setA_self, lookupA_setA_ne _ _ _ _ hn]

theorem readFile_writeFile_other_dir (fs : FileSystem) (d : Nat) (n c : String)
    (d' : Nat) (hd : d' ≠ d) (n' : String) :
    readFile (writeFile fs d n c) d' n' = readFile fs d' n' := by
  rcases hl : lookupA fs.dirs d with _ | files
  · simp [writeFile, hl]
  · simp [writeFile, readFile, hl, lookupA_setA_ne _ _ _ _ hd]

/-! ### Helper lemmas about disconnect -/

theorem disconnect_not_connected (b : MQTTClient.DisconnectBehavior)
    (s : MQTTState) (fs : FileSystem) (h : (s.client && s.is_connected) = false) :
    (MQTTClient.disconnect b s fs).state = s ∧
    (MQTTClient.disconnect b s fs).tr = [] := by
  unfold MQTTClient.disconnect
  rcases htd : s.temp_dir with _ | d
  · simp [h, htd]
  · rcases hrm : rmtree fs d with _ | fs2 <;> simp [h, htd, hrm]

theorem disconnect_clears_connected (b : MQTTClient.DisconnectBehavior)
    (s : MQTTState) (fs : FileSystem) :
    ((MQTTClient.disconnect b s fs).state.client &&
      (MQTTClient.disconnect b s fs).state.is_connected) = false := by
  unfold MQTTClient.disconnect
  by_cases h : (s.client && s.is_connected) = true
  · rcases hb : b.ack <;> rcases htd : s.temp_dir with _ | d
    · simp [h, hb, htd]
    · rcases hrm : rmtree fs d with _ | fs2 <;> simp [h, hb, htd, hrm]
    · simp [h, hb, htd, MQTTClient.on_disconnect]
    · rcases hrm : rmtree fs d with _ | fs2 <;>
        simp [h, hb, htd, hrm, MQTTClient.on_disconnect]
  · rw [Bool.not_eq_true] at h
    rcases htd : s.temp_dir with _ | d
    · simp [h, htd]
    · rcases hrm : rmtree fs d with _ | fs2 <;> simp [h, htd, hrm]

/-! ### Claim theorems -/

/-- C3: a publish-acknowledgement callback whose message id has no registered
completion signal is a no-op: `_on_publish` does not raise (it is a total
function of the state) and leaves the entire client state — in particular the
publish-tracking maps — unchanged. -/
theorem on_publish_unregistered_noop (mid rc : Nat) (s : MQTTState)
    (h : lookupA s.publish_events mid = none) :
    MQTTClient.on_publish mid rc s = s := by
  simp [MQTTClient.on_publish, h]

theorem on_publish_unregistered_noop_witness :
    lookupA (MQTTClient.initState).publish_events 7 = none ∧
    MQTTClient.on_publish 7 0 MQTTClient.initState = MQTTClient.initState :=
  ⟨rfl, on_publish_unregistered_noop 7 0 MQTTClient.initState rfl⟩

/-- C4: `subscribe(topic)` called while the state is not Connected raises the
RuntimeError "MQTT client not connected" immediately, with the state unchanged
(no pending-operation registration) and an empty trace (the transport is never
contacted). -/
theorem subscribe_not_connected_raises (b : MQTTClient.SubscribeBehavior)
    (topic : String) (s : MQTTState) (h : s.is_connected = false) :
    MQTTClient.subscribe b topic s =
      ⟨.exn "MQTT client not connected", s, []⟩ := by
  simp [MQTTClient.subscribe, h]

theorem subscribe_not_connected_raises_witness :
    MQTTClient.subscribe ⟨0, 1, false⟩ "device/42/status" MQTTClient.initState =
      ⟨.exn "MQTT client not connected", MQTTClient.initState, []⟩ :=
  subscribe_not_connected_raises ⟨0, 1, false⟩ "device/42/status"
    MQTTClient.initState rfl

/-- C5: when the transport reports the message as already flushed
(`is_published()` true immediately), `publish` returns success with the state
unchanged (no pending-operation entry is created in either publish-tracking
map) and the trace contains only the publish request — no bounded wait. -/
theorem publish_immediate_flush (b : MQTTClient.PublishBehavior)
    (topic : String) (payload : MQTTClient.PyPayload) (s : MQTTState)
    (hc : s.is_connected = true) (hcl : s.client = true)
    (hp : b.is_published = true) :
    MQTTClient.publish b topic payload s =
      ⟨.ok true, s, [Ev.publishReq topic (MQTTClient.payloadToStr payload)]⟩ := by
  simp [MQTTClient.publish, hc, hcl, hp]

theorem publish_immediate_flush_witness :
    MQTTClient.publish ⟨1, true, none⟩ "device/42/command"
        (.str "lock")
        { MQTTClient.initState with is_connected := true, client := true } =
      ⟨.ok true,
        { MQTTClient.initState with is_connected := true, client := true },
        [Ev.publishReq "device/42/command" "lock"]⟩ :=
  publish_immediate_flush ⟨1, true, none⟩ "device/42/command" (.str "lock")
    { MQTTClient.initState with is_connected := true, client := true }
    rfl rfl rfl

/-- C7: calling `disconnect()` twice in a row is safe: whatever the first call
did, the second call issues no transport operation and performs no wait (its
trace is empty), leaves the client state unchanged, and returns without
raising (disconnect is a total function; the rmtree failure on the already
removed temp directory is caught inside it). -/
theorem disconnect_second_call_noop (b1 b2 : MQTTClient.DisconnectBehavior)
    (s : MQTTState) (fs : FileSystem) :
    (MQTTClient.disconnect b2 (MQTTClient.disconnect b1 s fs).state
        (MQTTClient.disconnect b1 s fs).fs).tr = [] ∧
    (MQTTClient.disconnect b2 (MQTTClient.disconnect b1 s fs).state
        (MQTTClient.disconnect b1 s fs).fs).state =
      (MQTTClient.disconnect b1 s fs).state := by
  have h := disconnect_clears_connected b1 s fs
  have h2 := disconnect_not_connected b2 (MQTTClient.disconnect b1 s fs).state
    (MQTTClient.disconnect b1 s fs).fs h
  exact ⟨h2.2, h2.1⟩

/-- C8: for every inbound message with a registered consumer the dispatcher
decodes the payload as JSON and schedules the consumer with the structured
value on success and with the raw text on decode failure; with no consumer the
message is dropped. Concretely, payload {"battery":80} is dispatched as the
structured object and payload not-json as the raw text. -/
theorem on_message_dispatch :
    (∀ t p j, json_loads p = some j →
      MQTTClient.on_message true t p = some (t, .json j)) ∧
    (∀ t p, json_loads p = none →
      MQTTClient.on_message true t p = some (t, .raw p)) ∧
    (∀ t p, MQTTClient.on_message false t p = none) ∧
    MQTTClient.on_message true "device/42/status" "\x7b\"battery\":80\x7d" =
      some ("device/42/status",
        .json (Json.obj [("battery", Json.num 80)])) ∧
    MQTTClient.on_message true "device/42/status" "not-json" =
      some ("device/42/status", .raw "not-json") := by
  refine ⟨?_, ?_, ?_, rfl, rfl⟩
  · intro t p j h
    simp [MQTTClient.on_message, h]
  · intro t p h
    simp [MQTTClient.on_message, h]
  · intro t p
    simp [MQTTClient.on_message]

theorem on_message_dispatch_witness :
    MQTTClient.on_message true "t" "5" = some ("t", .json (Json.num 5)) ∧
    MQTTClient.on_message true "t" "x" = some ("t", .raw "x") ∧
    MQTTClient.on_message false "t" "x" = none :=
  ⟨on_message_dispatch.1 "t" "5" (Json.num 5) rfl,
   on_message_dispatch.2.1 "t" "x" rfl,
   on_message_dispatch.2.2.1 "t" "x"⟩

/-- C2 counterexample: with an unresolved in-flight subscribe registration for
topic "t" (pending event, not yet signalled), a second subscribe for "t" is
not rejected: it proceeds, returns ok true, and afterwards no record for "t"
exists — the unresolved record was silently overwritten and then discarded,
refuting "the duplicate is treated as a caller error or rejected". -/
theorem subscribe_duplicate_overwrites_cex :
    (MQTTClient.subscribe ⟨0, 1, true⟩ "t"
        { MQTTClient.initState with
          is_connected := true
          client := true
          subscribe_events := [("t", false)] }).out = .ok true ∧
    lookupA (MQTTClient.subscribe ⟨0, 1, true⟩ "t"
        { MQTTClient.initState with
          is_connected := true
          client := true
          subscribe_events := [("t", false)] }).state.subscribe_events "t" =
      none :=
  ⟨rfl, rfl⟩

/-- C2 amended: the code does not reject a duplicate in-flight subscribe:
whenever an unresolved pending record exists for the topic, a new subscribe
call still returns a normal boolean result (never a duplicate-record error)
and silently replaces the existing record, which is gone from the tracking
map when the call completes. -/
theorem subscribe_duplicate_not_rejected (b : MQTTClient.SubscribeBehavior)
    (topic : String) (s : MQTTState) (hc : s.is_connected = true)
    (hcl : s.client = true)
    (hdup : lookupA s.subscribe_events topic = some false) :
    (∃ ret, (MQTTClient.subscribe b topic s).out = .ok ret) ∧
    lookupA (MQTTClient.subscribe b topic s).state.subscribe_events topic =
      none := by
  unfold MQTTClient.subscribe
  by_cases hsr : b.sync_result = 0
  · by_cases hb : b.ack = true
    · by_cases htop : topic = ""
      · simp [hc, hcl, hsr, hb, htop, MQTTClient.on_subscribe,
          lookupA_setA_self, lookupA_eraseA_self]
      · simp [hc, hcl, hsr, hb, htop, MQTTClient.on_subscribe,
          lookupA_setA_self, lookupA_eraseA_self]
    · rw [Bool.not_eq_true] at hb
      simp [hc, hcl, hsr, hb, lookupA_setA_self, lookupA_eraseA_self]
  · simp [hc, hcl, hsr, lookupA_eraseA_self]

theorem subscribe_duplicate_not_rejected_witness :
    (∃ ret, (MQTTClient.subscribe ⟨0, 1, false⟩ "t"
        { MQTTClient.initState with
          is_connected := true
          client := true
          subscribe_events := [("t", false)] }).out = .ok ret) ∧
    lookupA (MQTTClient.subscribe ⟨0, 1, false⟩ "t"
        { MQTTClient.initState with
          is_connected := true
          client := true
          subscribe_events := [("t", false)] }).state.subscribe_events "t" =
      none :=
  subscribe_duplicate_not_rejected ⟨0, 1, false⟩ "t"
    { MQTTClient.initState with
      is_connected := true
      client := true
      subscribe_events := [("t", false)] } rfl rfl rfl

/-- C6: for a subscribe issued while Connected: synchronous transport refusal
rolls back the registration and fails immediately (no wait in the trace);
when no ack arrives in the 5-unit wait — or when the ack can never match
because the topic is the empty string, which the callback's truthiness guard
drops — the wait expires, the registration is rolled back and the call fails;
a matching acknowledgement within the wait yields success — and on every path
the pending-record map holds no entry for the topic after the call. -/
theorem subscribe_paths_cleanup (b : MQTTClient.SubscribeBehavior)
    (topic : String) (s : MQTTState) (hc : s.is_connected = true)
    (hcl : s.client = true) :
    (b.sync_result ≠ 0 →
      (MQTTClient.subscribe b topic s).out = .ok false ∧
      (MQTTClient.subscribe b topic s).tr = [Ev.subscribeReq topic] ∧
      lookupA (MQTTClient.subscribe b topic s).state.subscribe_events topic =
        none) ∧
    (b.sync_result = 0 → b.ack = false ∨ topic = "" →
      (MQTTClient.subscribe b topic s).out = .ok false ∧
      (MQTTClient.subscribe b topic s).tr =
        [Ev.subscribeReq topic, Ev.waited 5 false] ∧
      lookupA (MQTTClient.subscribe b topic s).state.subscribe_events topic =
        none) ∧
    (b.sync_result = 0 → b.ack = true → topic ≠ "" →
      (MQTTClient.subscribe b topic s).out = .ok true ∧
      (MQTTClient.subscribe b topic s).tr =
        [Ev.subscribeReq topic, Ev.waited 5 true] ∧
      lookupA (MQTTClient.subscribe b topic s).state.subscribe_events topic =
        none) := by
  refine ⟨?_, ?_, ?_⟩
  · intro hsr
    unfold MQTTClient.subscribe
    simp [hc, hcl, hsr, lookupA_eraseA_self]
  · intro hsr hb
    unfold MQTTClient.subscribe
    rcases hb with hb | hb
    · simp [hc, hcl, hsr, hb, lookupA_setA_self, lookupA_eraseA_self]
    · rcases hack : b.ack
      · simp [hc, hcl, hsr, hack, lookupA_setA_self, lookupA_eraseA_self]
      · simp [hc, hcl, hsr, hack, hb, MQTTClient.on_subscribe,
          lookupA_setA_self, lookupA_eraseA_self]
  · intro hsr hb htop
    unfold MQTTClient.subscribe
    simp [hc, hcl, hsr, hb, htop, MQTTClient.on_subscribe, lookupA_setA_self,
      lookupA_eraseA_self]

theorem subscribe_paths_cleanup_witness :
    (MQTTClient.subscribe ⟨0, 1, false⟩ "device/42/status"
        { MQTTClient.initState with is_connected := true, client := true }).out =
      .ok false ∧
    (MQTTClient.subscribe ⟨0, 1, false⟩ "device/42/status"
        { MQTTClient.initState with is_connected := true, client := true }).tr =
      [Ev.subscribeReq "device/42/status", Ev.waited 5 false] ∧
    lookupA (MQTTClient.subscribe ⟨0, 1, false⟩ "device/42/status"
        { MQTTClient.initState with
          is_connected := true
          client := true }).state.subscribe_events "device/42/status" = none :=
  (subscribe_paths_cleanup ⟨0, 1, false⟩ "device/42/status"
    { MQTTClient.initState with is_connected := true, client := true }
    rfl rfl).2.1 rfl (Or.inl rfl)

/-! ### Helper lemmas about the connect callback and credential writes -/

theorem on_connect_nonzero (rc : Nat) (hrc : rc ≠ 0) (s : MQTTState) :
    MQTTClient.on_connect rc s = s := by
  simp [MQTTClient.on_connect, hrc]

theorem on_connect_temp_dir (rc : Nat) (s : MQTTState) :
    (MQTTClient.on_connect rc s).temp_dir = s.temp_dir := by
  unfold MQTTClient.on_connect
  split <;> rfl

theorem writes_isSome (fs0 : FileSystem) (d : Nat) (a b c : String)
    (h : (lookupA fs0.dirs d).isSome = true) :
    (lookupA (writeFile (writeFile (writeFile fs0 d "ca.crt" a) d "cert.pem" b)
        d "private.key" c).dirs d).isSome = true :=
  writeFile_isSome_self _ _ _ _
    (writeFile_isSome_self _ _ _ _ (writeFile_isSome_self _ _ _ _ h))

theorem writes_nextDir (fs0 : FileSystem) (d : Nat) (a b c : String) :
    (writeFile (writeFile (writeFile fs0 d "ca.crt" a) d "cert.pem" b)
        d "private.key" c).nextDir = fs0.nextDir := by
  simp [writeFile_nextDir]

theorem writes_frame (fs0 : FileSystem) (d : Nat) (a b c : String) (d' : Nat)
    (n : String) (hd : d' ≠ d) :
    readFile (writeFile (writeFile (writeFile fs0 d "ca.crt" a) d "cert.pem" b)
        d "private.key" c) d' n = readFile fs0 d' n := by
  rw [readFile_writeFile_other_dir _ _ _ _ _ hd,
    readFile_writeFile_other_dir _ _ _ _ _ hd,
    readFile_writeFile_other_dir _ _ _ _ _ hd]

theorem writes_read (fs0 : FileSystem) (d : Nat) (a b c : String)
    (h : (lookupA fs0.dirs d).isSome = true) :
    readFile (writeFile (writeFile (writeFile fs0 d "ca.crt" a) d "cert.pem" b)
        d "private.key" c) d "ca.crt" = some a ∧
    readFile (writeFile (writeFile (writeFile fs0 d "ca.crt" a) d "cert.pem" b)
        d "private.key" c) d "cert.pem" = some b ∧
    readFile (writeFile (writeFile (writeFile fs0 d "ca.crt" a) d "cert.pem" b)
        d "private.key" c) d "private.key" = some c := by
  refine ⟨?_, ?_, ?_⟩
  · rw [readFile_writeFile_other_name _ _ _ _ _ (by decide),
      readFile_writeFile_other_name _ _ _ _ _ (by decide)]
    exact readFile_writeFile_self _ _ _ _ h
  · rw [readFile_writeFile_other_name _ _ _ _ _ (by decide)]
    exact readFile_writeFile_self _ _ _ _ (writeFile_isSome_self _ _ _ _ h)
  · exact readFile_writeFile_self _ _ _ _
      (writeFile_isSome_self _ _ _ _ (writeFile_isSome_self _ _ _ _ h))

theorem readFile_mkdtemp_other (fs : FileSystem) (d : Nat) (n : String)
    (hd : d ≠ fs.nextDir) :
    readFile (mkdtemp fs).2 d n = readFile fs d n := by
  simp [mkdtemp, readFile, lookupA, hd]

theorem connect_fs_eq (cert : IoTCertResponse) (b : MQTTClient.ConnectBehavior)
    (s : MQTTState) (fs : FileSystem) :
    (MQTTClient.connect cert b s fs).fs =
      if b.write_ok then
        writeFile (writeFile (writeFile
            ⟨fs.nextDir + 1, (fs.nextDir, []) :: fs.dirs⟩
            fs.nextDir "ca.crt" cert.ca)
          fs.nextDir "cert.pem" cert.cert_key)
          fs.nextDir "private.key" cert.private_key
      else ⟨fs.nextDir + 1, (fs.nextDir, []) :: fs.dirs⟩ := by
  unfold MQTTClient.connect
  rcases hw : b.write_ok
  · simp [hw, mkdtemp]
  · rcases hp : MQTTClient.parseBroker cert.mqtt_broker with _ | ⟨host, port⟩
    · simp [hw, hp, mkdtemp]
    · by_cases hir : b.init_result = 0
      · rcases ha : b.ack with _ | rc <;>
          (simp [hw, hp, hir, ha, mkdtemp]
           all_goals (split <;> rfl))
      · simp [hw, hp, hir, mkdtemp]

theorem connect_temp_dir (cert : IoTCertResponse) (b : MQTTClient.ConnectBehavior)
    (s : MQTTState) (fs : FileSystem) :
    (MQTTClient.connect cert b s fs).state.temp_dir = some fs.nextDir := by
  unfold MQTTClient.connect
  rcases hw : b.write_ok
  · simp [hw, mkdtemp]
  · rcases hp : MQTTClient.parseBroker cert.mqtt_broker with _ | ⟨host, port⟩
    · simp [hw, hp, mkdtemp]
    · by_cases hir : b.init_result = 0
      · rcases ha : b.ack with _ | rc <;>
          (simp [hw, hp, hir, ha, mkdtemp]
           all_goals (split <;> simp [on_connect_temp_dir]))
      · simp [hw, hp, hir, mkdtemp]

theorem connect_nextDir (cert : IoTCertResponse) (b : MQTTClient.ConnectBehavior)
    (s : MQTTState) (fs : FileSystem) :
    (MQTTClient.connect cert b s fs).fs.nextDir = fs.nextDir + 1 := by
  rw [connect_fs_eq]
  rcases hw : b.write_ok
  · simp [hw]
  · simp only [hw, if_true]
    rw [writes_nextDir]

theorem connect_reads (cert : IoTCertResponse) (b : MQTTClient.ConnectBehavior)
    (s : MQTTState) (fs : FileSystem) (h : b.write_ok = true) :
    readFile (MQTTClient.connect cert b s fs).fs fs.nextDir "ca.crt" =
      some cert.ca ∧
    readFile (MQTTClient.connect cert b s fs).fs fs.nextDir "cert.pem" =
      some cert.cert_key ∧
    readFile (MQTTClient.connect cert b s fs).fs fs.nextDir "private.key" =
      some cert.private_key := by
  simp only [connect_fs_eq, h, if_true]
  exact writes_read _ _ _ _ _ (by simp [lookupA])

theorem connect_frame (cert : IoTCertResponse) (b : MQTTClient.ConnectBehavior)
    (s : MQTTState) (fs : FileSystem) (d : Nat) (n : String)
    (hd : d ≠ fs.nextDir) :
    readFile (MQTTClient.connect cert b s fs).fs d n = readFile fs d n := by
  rw [connect_fs_eq]
  rcases hw : b.write_ok
  · simp [hw, readFile, lookupA, hd]
  · simp only [hw, if_true]
    rw [writes_frame _ _ _ _ _ _ _ hd]
    simp [readFile, lookupA, hd]

theorem connect_ret_connected (cert : IoTCertResponse)
    (b : MQTTClient.ConnectBehavior) (s : MQTTState) (fs : FileSystem)
    (h1 : s.is_connected = false) (h2 : s.connection_event = false) :
    ((MQTTClient.connect cert b s fs).ret = true →
      (MQTTClient.connect cert b s fs).state.is_connected = true) ∧
    ((MQTTClient.connect cert b s fs).ret = false →
      (MQTTClient.connect cert b s fs).state.is_connected = false) := by
  unfold MQTTClient.connect
  rcases hw : b.write_ok
  · simp [hw, mkdtemp, h1]
  · rcases hp : MQTTClient.parseBroker cert.mqtt_broker with _ | ⟨host, port⟩
    · simp [hw, hp, mkdtemp, h1]
    · by_cases hir : b.init_result = 0
      · rcases ha : b.ack with _ | rc
        · simp [hw, hp, hir, ha, mkdtemp, h1, h2]
        · by_cases hrc : rc = 0
          · subst hrc
            simp [hw, hp, hir, ha, mkdtemp, MQTTClient.on_connect]
          · simp [hw, hp, hir, ha, mkdtemp, on_connect_nonzero rc hrc, h1, h2]
      · simp [hw, hp, hir, mkdtemp, h1]

theorem disconnect_fs_eq (b : MQTTClient.DisconnectBehavior) (s : MQTTState)
    (fs : FileSystem) :
    (MQTTClient.disconnect b s fs).fs =
      (match s.temp_dir with
        | some d =>
          match rmtree fs d with
          | some fs2 => fs2
          | none => fs
        | none => fs) := by
  unfold MQTTClient.disconnect
  by_cases h : (s.client && s.is_connected) = true
  · rcases hb : b.ack <;> rcases htd : s.temp_dir with _ | d
    · simp [h, hb, htd]
    · rcases hrm : rmtree fs d with _ | fs2 <;> simp [h, hb, htd, hrm]
    · simp [h, hb, htd, MQTTClient.on_disconnect]
    · rcases hrm : rmtree fs d with _ | fs2 <;>
        simp [h, hb, htd, hrm, MQTTClient.on_disconnect]
  · rw [Bool.not_eq_true] at h
    rcases htd : s.temp_dir with _ | d
    · simp [h, htd]
    · rcases hrm : rmtree fs d with _ | fs2 <;> simp [h, htd, hrm]

theorem disconnect_fs_frame (b : MQTTClient.DisconnectBehavior) (s : MQTTState)
    (fs : FileSystem) (d : Nat) (n : String) (hd : s.temp_dir ≠ some d) :
    readFile (MQTTClient.disconnect b s fs).fs d n = readFile fs d n := by
  rw [disconnect_fs_eq]
  rcases htd : s.temp_dir with _ | d2
  · rfl
  · have hne : d ≠ d2 := by
      intro he
      exact hd (by rw [he, htd])
    simp only [htd]
    rcases hrm : rmtree fs d2 with _ | fs2 <;> simp only [hrm]
    · unfold rmtree at hrm
      rcases hl : lookupA fs.dirs d2 with _ | files
      · rw [hl] at hrm
        cases hrm
      · rw [hl] at hrm
        cases hrm
        simp [readFile, lookupA_eraseA_ne fs.dirs d2 d hne]

theorem disconnect_removes_temp (b : MQTTClient.DisconnectBehavior)
    (s : MQTTState) (fs : FileSystem) (d2 : Nat) (htd : s.temp_dir = some d2) :
    lookupA (MQTTClient.disconnect b s fs).fs.dirs d2 = none := by
  rw [disconnect_fs_eq]
  simp only [htd]
  rcases hrm : rmtree fs d2 with _ | fs2 <;> simp only [hrm]
  · unfold rmtree at hrm
    rcases hl : lookupA fs.dirs d2 with _ | files
    · rfl
    · rw [hl] at hrm
      cases hrm
  · unfold rmtree at hrm
    rcases hl : lookupA fs.dirs d2 with _ | files
    · rw [hl] at hrm
      cases hrm
    · rw [hl] at hrm
      cases hrm
      simp [lookupA_eraseA_self]

/-- C1 counterexample: a concrete failed connect (the transport synchronously
refuses to initiate, `client.connect` returning a nonzero code) returns false,
yet the materialized credential files — the CA, the client certificate and the
private key written into the temp directory — all remain on disk after the
call, refuting "no materialized credential material remains" for failed
connects. -/
theorem connect_failure_leaves_credentials_cex :
    (MQTTClient.connect ⟨"CA", "CERT", "h:1", "cid", "KEY"⟩ ⟨true, 1, none⟩
        MQTTClient.initState ⟨0, []⟩).ret = false ∧
    readFile (MQTTClient.connect ⟨"CA", "CERT", "h:1", "cid", "KEY"⟩
        ⟨true, 1, none⟩ MQTTClient.initState ⟨0, []⟩).fs 0 "ca.crt" =
      some "CA" ∧
    readFile (MQTTClient.connect ⟨"CA", "CERT", "h:1", "cid", "KEY"⟩
        ⟨true, 1, none⟩ MQTTClient.initState ⟨0, []⟩).fs 0 "cert.pem" =
      some "CERT" ∧
    readFile (MQTTClient.connect ⟨"CA", "CERT", "h:1", "cid", "KEY"⟩
        ⟨true, 1, none⟩ MQTTClient.initState ⟨0, []⟩).fs 0 "private.key" =
      some "KEY" :=
  ⟨rfl, rfl, rfl, rfl⟩

/-- C1 amended: every `connect()` call returns a boolean rather than raising
(connect is total, all exceptions are caught); starting from a Disconnected
state, a successful call leaves the state Connected and a failed or timed-out
call leaves it Disconnected — but on every path, success and failure alike,
the temp directory created by the call is still present on disk afterwards and
still referenced by the stored handle: failed connects do NOT remove the
materialized credential material (cleanup happens only in `disconnect()`). -/
theorem connect_state_after_result (cert : IoTCertResponse)
    (b : MQTTClient.ConnectBehavior) (s : MQTTState) (fs : FileSystem)
    (h1 : s.is_connected = false) (h2 : s.connection_event = false) :
    ((MQTTClient.connect cert b s fs).ret = true →
      (MQTTClient.connect cert b s fs).state.is_connected = true) ∧
    ((MQTTClient.connect cert b s fs).ret = false →
      (MQTTClient.connect cert b s fs).state.is_connected = false) ∧
    (MQTTClient.connect cert b s fs).state.temp_dir = some fs.nextDir ∧
    (lookupA (MQTTClient.connect cert b s fs).fs.dirs fs.nextDir).isSome =
      true := by
  refine ⟨(connect_ret_connected cert b s fs h1 h2).1,
    (connect_ret_connected cert b s fs h1 h2).2,
    connect_temp_dir cert b s fs, ?_⟩
  rw [connect_fs_eq]
  rcases hw : b.write_ok
  · simp [hw, lookupA]
  · simp only [hw, if_true]
    exact writes_isSome _ _ _ _ _ (by simp [lookupA])

theorem connect_state_after_result_witness :
    (MQTTClient.connect ⟨"CA", "CERT", "h:1", "cid", "KEY"⟩ ⟨true, 0, some 0⟩
        MQTTClient.initState ⟨0, []⟩).state.temp_dir = some 0 ∧
    (lookupA (MQTTClient.connect ⟨"CA", "CERT", "h:1", "cid", "KEY"⟩
        ⟨true, 0, some 0⟩ MQTTClient.initState ⟨0, []⟩).fs.dirs 0).isSome =
      true :=
  (connect_state_after_result ⟨"CA", "CERT", "h:1", "cid", "KEY"⟩
    ⟨true, 0, some 0⟩ MQTTClient.initState ⟨0, []⟩ rfl rfl).2.2

/-- C9: when the transport delivers a connect acknowledgement with a nonzero
(failure) reason code, `_on_connect` leaves every state unchanged — the
connect-completion event is never set and is_connected stays false — so the
pending `connect()` does not return early on that acknowledgement: it returns
false only through the expired full 10-unit wait (`waited 10 false` appears in
its trace). -/
theorem connect_nack_times_out (cert : IoTCertResponse)
    (b : MQTTClient.ConnectBehavior) (s : MQTTState) (fs : FileSystem)
    (rc : Nat) (host : String) (port : Nat)
    (h1 : s.is_connected = false) (h2 : s.connection_event = false)
    (hw : b.write_ok = true) (hi : b.init_result = 0) (ha : b.ack = some rc)
    (hrc : rc ≠ 0)
    (hp : MQTTClient.parseBroker cert.mqtt_broker = some (host, port)) :
    (MQTTClient.connect cert b s fs).ret = false ∧
    (MQTTClient.connect cert b s fs).state.is_connected = false ∧
    (MQTTClient.connect cert b s fs).state.connection_event = false ∧
    Ev.waited 10 false ∈ (MQTTClient.connect cert b s fs).tr ∧
    ∀ s2, MQTTClient.on_connect rc s2 = s2 := by
  refine ⟨?_, ?_, ?_, ?_, fun s2 => on_connect_nonzero rc hrc s2⟩ <;>
    (unfold MQTTClient.connect
     simp [hw, hp, hi, ha, mkdtemp, on_connect_nonzero rc hrc, h1, h2])

theorem connect_nack_times_out_witness :
    (MQTTClient.connect ⟨"CA", "CERT", "h:1", "cid", "KEY"⟩ ⟨true, 0, some 5⟩
        MQTTClient.initState ⟨0, []⟩).ret = false ∧
    (MQTTClient.connect ⟨"CA", "CERT", "h:1", "cid", "KEY"⟩ ⟨true, 0, some 5⟩
        MQTTClient.initState ⟨0, []⟩).state.is_connected = false ∧
    (MQTTClient.connect ⟨"CA", "CERT", "h:1", "cid", "KEY"⟩ ⟨true, 0, some 5⟩
        MQTTClient.initState ⟨0, []⟩).state.connection_event = false ∧
    Ev.waited 10 false ∈ (MQTTClient.connect ⟨"CA", "CERT", "h:1", "cid", "KEY"⟩
        ⟨true, 0, some 5⟩ MQTTClient.initState ⟨0, []⟩).tr ∧
    ∀ s2, MQTTClient.on_connect 5 s2 = s2 :=
  connect_nack_times_out ⟨"CA", "CERT", "h:1", "cid", "KEY"⟩ ⟨true, 0, some 5⟩
    MQTTClient.initState ⟨0, []⟩ 5 "h" 1 rfl rfl rfl rfl rfl (by decide) rfl

/-- C10: a second `connect()` without an intervening `disconnect()` replaces
the stored temp-directory handle with the freshly allocated directory; a
subsequent `disconnect()` removes only the directory named by that handle, so
the credential files written by the first connect attempt (CA, certificate,
private key) are still on disk afterwards — they are never cleaned up by the
client. -/
theorem connect_twice_leaks_first_dir (cert1 cert2 : IoTCertResponse)
    (b1 b2 : MQTTClient.ConnectBehavior) (bd : MQTTClient.DisconnectBehavior)
    (s : MQTTState) (fs : FileSystem) (r1 r2 : ConnectResult)
    (r3 : DisconnectResult) (h : b1.write_ok = true)
    (e1 : r1 = MQTTClient.connect cert1 b1 s fs)
    (e2 : r2 = MQTTClient.connect cert2 b2 r1.state r1.fs)
    (e3 : r3 = MQTTClient.disconnect bd r2.state r2.fs) :
    r2.state.temp_dir = some (fs.nextDir + 1) ∧
    lookupA r3.fs.dirs (fs.nextDir + 1) = none ∧
    readFile r3.fs fs.nextDir "ca.crt" = some cert1.ca ∧
    readFile r3.fs fs.nextDir "cert.pem" = some cert1.cert_key ∧
    readFile r3.fs fs.nextDir "private.key" = some cert1.private_key := by
  subst e3
  subst e2
  subst e1
  have hn1 := connect_nextDir cert1 b1 s fs
  have ht2 : (MQTTClient.connect cert2 b2 (MQTTClient.connect cert1 b1 s fs).state
      (MQTTClient.connect cert1 b1 s fs).fs).state.temp_dir =
      some (fs.nextDir + 1) := by
    rw [connect_temp_dir, hn1]
  have hr1 := connect_reads cert1 b1 s fs h
  have hf2 : ∀ n, readFile (MQTTClient.connect cert2 b2
      (MQTTClient.connect cert1 b1 s fs).state
      (MQTTClient.connect cert1 b1 s fs).fs).fs fs.nextDir n =
      readFile (MQTTClient.connect cert1 b1 s fs).fs fs.nextDir n := by
    intro n
    exact connect_frame cert2 b2 _ _ fs.nextDir n (by rw [hn1]; omega)
  have hf3 : ∀ n, readFile (MQTTClient.disconnect bd
      (MQTTClient.connect cert2 b2 (MQTTClient.connect cert1 b1 s fs).state
        (MQTTClient.connect cert1 b1 s fs).fs).state
      (MQTTClient.connect cert2 b2 (MQTTClient.connect cert1 b1 s fs).state
        (MQTTClient.connect cert1 b1 s fs).fs).fs).fs fs.nextDir n =
      readFile (MQTTClient.connect cert2 b2
        (MQTTClient.connect cert1 b1 s fs).state
        (MQTTClient.connect cert1 b1 s fs).fs).fs fs.nextDir n := by
    intro n
    refine disconnect_fs_frame bd _ _ fs.nextDir n ?_
    rw [ht2]
    intro hcontra
    have : fs.nextDir + 1 = fs.nextDir := by
      exact Option.some.inj hcontra
    omega
  refine ⟨ht2, ?_, ?_, ?_, ?_⟩
  · exact disconnect_removes_temp bd _ _ (fs.nextDir + 1) ht2
  · rw [hf3, hf2]
    exact hr1.1
  · rw [hf3, hf2]
    exact hr1.2.1
  · rw [hf3, hf2]
    exact hr1.2.2

theorem connect_twice_leaks_first_dir_witness :
    (MQTTClient.connect ⟨"D", "E", "h:1", "i", "F"⟩ ⟨true, 0, some 0⟩
        (MQTTClient.connect ⟨"A", "B", "h:1", "i", "C"⟩ ⟨true, 0, some 0⟩
          MQTTClient.initState ⟨0, []⟩).state
        (MQTTClient.connect ⟨"A", "B", "h:1", "i", "C"⟩ ⟨true, 0, some 0⟩
          MQTTClient.initState ⟨0, []⟩).fs).state.temp_dir = some 1 ∧
    lookupA (MQTTClient.disconnect ⟨true⟩
        (MQTTClient.connect ⟨"D", "E", "h:1", "i", "F"⟩ ⟨true, 0, some 0⟩
          (MQTTClient.connect ⟨"A", "B", "h:1", "i", "C"⟩ ⟨true, 0, some 0⟩
            MQTTClient.initState ⟨0, []⟩).state
          (MQTTClient.connect ⟨"A", "B", "h:1", "i", "C"⟩ ⟨true, 0, some 0⟩
            MQTTClient.initState ⟨0, []⟩).fs).state
        (MQTTClient.connect ⟨"D", "E", "h:1", "i", "F"⟩ ⟨true, 0, some 0⟩
          (MQTTClient.connect ⟨"A", "B", "h:1", "i", "C"⟩ ⟨true, 0, some 0⟩
            MQTTClient.initState ⟨0, []⟩).state
          (MQTTClient.connect ⟨"A", "B", "h:1", "i", "C"⟩ ⟨true, 0, some 0⟩
            MQTTClient.initState ⟨0, []⟩).fs).fs).fs.dirs 1 = none ∧
    readFile (MQTTClient.disconnect ⟨true⟩
        (MQTTClient.connect ⟨"D", "E", "h:1", "i", "F"⟩ ⟨true, 0, some 0⟩
          (MQTTClient.connect ⟨"A", "B", "h:1", "i", "C"⟩ ⟨true, 0, some 0⟩
            MQTTClient.initState ⟨0, []⟩).state
          (MQTTClient.connect ⟨"A", "B", "h:1", "i", "C"⟩ ⟨true, 0, some 0⟩
            MQTTClient.initState ⟨0, []⟩).fs).state
        (MQTTClient.connect ⟨"D", "E", "h:1", "i", "F"⟩ ⟨true, 0, some 0⟩
          (MQTTClient.connect ⟨"A", "B", "h:1", "i", "C"⟩ ⟨true, 0, some 0⟩
            MQTTClient.initState ⟨0, []⟩).state
          (MQTTClient.connect ⟨"A", "B", "h:1", "i", "C"⟩ ⟨true, 0, some 0⟩
            MQTTClient.initState ⟨0, []⟩).fs).fs).fs 0 "ca.crt" = some "A" ∧
    readFile (MQTTClient.disconnect ⟨true⟩
        (MQTTClient.connect ⟨"D", "E", "h:1", "i", "F"⟩ ⟨true, 0, some 0⟩
          (MQTTClient.connect ⟨"A", "B", "h:1", "i", "C"⟩ ⟨true, 0, some 0⟩
            MQTTClient.initState ⟨0, []⟩).state
          (MQTTClient.connect ⟨"A", "B", "h:1", "i", "C"⟩ ⟨true, 0, some 0⟩
            MQTTClient.initState ⟨0, []⟩).fs).state
        (MQTTClient.connect ⟨"D", "E", "h:1", "i", "F"⟩ ⟨true, 0, some 0⟩
          (MQTTClient.connect ⟨"A", "B", "h:1", "i", "C"⟩ ⟨true, 0, some 0⟩
            MQTTClient.initState ⟨0, []⟩).state
          (MQTTClient.connect ⟨"A", "B", "h:1", "i", "C"⟩ ⟨true, 0, some 0⟩
            MQTTClient.initState ⟨0, []⟩).fs).fs).fs 0 "cert.pem" = some "B" ∧
    readFile (MQTTClient.disconnect ⟨true⟩
        (MQTTClient.connect ⟨"D", "E", "h:1", "i", "F"⟩ ⟨true, 0, some 0⟩
          (MQTTClient.connect ⟨"A", "B", "h:1", "i", "C"⟩ ⟨true, 0, some 0⟩
            MQTTClient.initState ⟨0, []⟩).state
          (MQTTClient.connect ⟨"A", "B", "h:1", "i", "C"⟩ ⟨true, 0, some 0⟩
            MQTTClient.initState ⟨0, []⟩).fs).state
        (MQTTClient.connect ⟨"D", "E", "h:1", "i", "F"⟩ ⟨true, 0, some 0⟩
          (MQTTClient.connect ⟨"A", "B", "h:1", "i", "C"⟩ ⟨true, 0, some 0⟩
            MQTTClient.initState ⟨0, []⟩).state
          (MQTTClient.connect ⟨"A", "B", "h:1", "i", "C"⟩ ⟨true, 0, some 0⟩
            MQTTClient.initState ⟨0, []⟩).fs).fs).fs 0 "private.key" =
      some "C" :=
  connect_twice_leaks_first_dir ⟨"A", "B", "h:1", "i", "C"⟩
    ⟨"D", "E", "h:1", "i", "F"⟩ ⟨true, 0, some 0⟩ ⟨true, 0, some 0⟩ ⟨true⟩
    MQTTClient.initState ⟨0, []⟩ _ _ _ rfl rfl rfl rfl
